import Mathlib

/-!
Verification of the Gatherly availability reconciliation engine.

Shallow embedding of the Python source under `app/`:
 * `app/routes/availability.py`   (manual edits, provider sync routes, default schedule)
 * `app/tasks/calendar_scheduler.py`   (multi-source background sync, `CalendarScheduler`)
 * `app/tasks/google_calendar_scheduler.py`   (legacy single-provider sync, `GoogleCalendarScheduler`)
 * `app/models/availability.py`   (`Availability` model: day getters and the manual day setter)
 * `app/services/outlook_calendar_service.py`   (busy-status filtering)

Times are minutes-of-day (`Nat`); Python time strings are Lean `String`s and the
Python string operations used by the source (`in`, `replace`, `split`, `int`) are
modelled over `List Char` so that everything kernel-evaluates.  Python exceptions
(`ValueError` from `int`/tuple unpacking) are modelled with `Option`: `none` means
the Python code raises, which the callers catch per week, leaving stored data
unchanged.  Dictionary day objects are records with `Option` fields (`none` =
key absent); dict `.get` with a default becomes `Option.getD`.
-/

namespace Gatherly

/-- `listStartsWith l pat` : does `l` start with `pat`? (helper for the models of
Python `in` and `str.replace`). -/
def listStartsWith : List Char → List Char → Bool
  | _, [] => true
  | [], _ :: _ => false
  | a :: l, b :: p => a = b && listStartsWith l p

/-- Model of Python `pat in s` (substring containment) on character lists. -/
def listContains (l pat : List Char) : Bool :=
  match l with
  | [] => listStartsWith [] pat
  | _ :: rest => listStartsWith l pat || listContains rest pat

/-- Worker for `listReplace`; the fuel argument (initially the length of the
string) only makes the left-to-right replacement loop structurally recursive. -/
def listReplaceGo (pat : List Char) : Nat → List Char → List Char
  | _, [] => []
  | 0, l => l
  | fuel + 1, c :: rest =>
    if listStartsWith (c :: rest) pat && pat ≠ [] then
      listReplaceGo pat fuel (rest.drop (pat.length - 1))
    else c :: listReplaceGo pat fuel rest

/-- Model of Python `s.replace(pat, '')` (delete every occurrence, left to right). -/
def listReplace (l pat : List Char) : List Char := listReplaceGo pat l.length l

/-- Model of Python `s.split(sep)` for a one-character separator. -/
def listSplitOnChar (sep : Char) (l : List Char) : List (List Char) :=
  match l with
  | [] => [[]]
  | c :: rest =>
    let r := listSplitOnChar sep rest
    if c = sep then [] :: r
    else
      match r with
      | [] => [[c]]
      | f :: tail => (c :: f) :: tail

/-- Model of Python `int(s)` on the strings this code feeds it (non-negative
digit strings); `none` models the `ValueError` raised on anything else. -/
def pyInt? (l : List Char) : Option Nat :=
  if l ≠ [] && l.all (fun c => c.isDigit) then
    some (l.foldl (fun acc c => acc * 10 + (c.toNat - 48)) 0)
  else none

/-- Python `pat in s` on `String`. -/
def strContains (s pat : String) : Bool := listContains s.data pat.data

/-- Python `s.replace(pat, '')` on `String`. -/
def pyReplace (s pat : String) : String := ⟨listReplace s.data pat.data⟩

/-- Python `s.split(':')` on `String`. -/
def pySplitColon (s : String) : List (List Char) := listSplitOnChar ':' s.data

/-- Python `s.lower()` on `String`. -/
def pyLower (s : String) : String := ⟨s.data.map Char.toLower⟩

/-- Python `f"{n:02d}"` for the non-negative values appearing here. -/
def pad2 (n : Nat) : String := if n < 10 then "0" ++ toString n else toString n

/-- `minutes_to_time_str` as defined identically inside
`CalendarScheduler._subtract_busy_times_from_ranges`
(`app/tasks/calendar_scheduler.py`) and `_subtract_busy_times_from_ranges`
(`app/routes/availability.py`): 12-hour display format, no leading zero on the
hour, two-digit minutes. -/
def minutes_to_time_str (m : Nat) : String :=
  let hours := m / 60
  let mins := m % 60
  if hours = 0 then "12:" ++ pad2 mins ++ " AM"
  else if hours < 12 then toString hours ++ ":" ++ pad2 mins ++ " AM"
  else if hours = 12 then "12:" ++ pad2 mins ++ " PM"
  else toString (hours - 12) ++ ":" ++ pad2 mins ++ " PM"

/-- `time_to_minutes` as defined identically inside
`CalendarScheduler._subtract_busy_times_from_ranges` and the routes
`_subtract_busy_times_from_ranges`: accepts both `H:MM AM/PM` and 24-hour
`HH:MM` strings; `none` models the `ValueError` the Python code raises on
malformed input (caught by the per-week sync loop). -/
def time_to_minutes (s : String) : Option Nat :=
  let hasAM := strContains s "AM"
  let hasPM := strContains s "PM"
  if hasAM || hasPM then
    let tp := pyReplace (pyReplace s " AM") " PM"
    match pySplitColon tp with
    | [h, m] =>
      match pyInt? h, pyInt? m with
      | some hh, some mm =>
        let hh2 := if hasPM && hh ≠ 12 then hh + 12 else if hasAM && hh = 12 then 0 else hh
        some (hh2 * 60 + mm)
      | _, _ => none
    | _ => none
  else
    match pySplitColon s with
    | [h, m] =>
      match pyInt? h, pyInt? m with
      | some hh, some mm => some (hh * 60 + mm)
      | _, _ => none
    | _ => none

namespace GoogleCalendarScheduler

/-- `time_to_minutes` inside
`GoogleCalendarScheduler._subtract_busy_times_from_ranges`
(`app/tasks/google_calendar_scheduler.py`): 24-hour `HH:MM` strings only. -/
def time_to_minutes (s : String) : Option Nat :=
  match pySplitColon s with
  | [h, m] =>
    match pyInt? h, pyInt? m with
    | some hh, some mm => some (hh * 60 + mm)
    | _, _ => none
  | _ => none

/-- `minutes_to_time_str` inside
`GoogleCalendarScheduler._subtract_busy_times_from_ranges`: zero-padded
24-hour `HH:MM`. -/
def minutes_to_time_str (m : Nat) : String := pad2 (m / 60) ++ ":" ++ pad2 (m % 60)

end GoogleCalendarScheduler

/-- One stored time-range dict `{'start': ..., 'end': ...}`; the `end` key is
named `stop` because `end` is a Lean keyword. -/
structure TimeRangeS where
  start : String
  stop : String
deriving DecidableEq, Repr

/-- One step of the inner subtraction loop shared verbatim by all three
`_subtract_busy_times_from_ranges` copies: one busy interval `(bs, be)` applied
to one current range `(start, end)`. -/
def subtractOne (bs be : Nat) (r : Nat × Nat) : List (Nat × Nat) :=
  if be ≤ r.1 ∨ bs ≥ r.2 then [r]
  else (if r.1 < bs then [(r.1, bs)] else []) ++ (if be < r.2 then [(be, r.2)] else [])

/-- The `for busy_time in busy_times:` loop: fold every busy interval over the
current range list, each step replacing every range by its `subtractOne` pieces
in order. -/
def subtractBusy (busy : List (Nat × Nat)) (cur : List (Nat × Nat)) : List (Nat × Nat) :=
  busy.foldl (fun c b => c.flatMap (subtractOne b.1 b.2)) cur

/-- The whole `_subtract_busy_times_from_ranges` body, parameterized by the
parse function, format function and minimum-duration threshold of the call
site.  Per input range: parse endpoints (a parse failure models the
`ValueError` that aborts the call), subtract every busy interval, keep the
pieces of duration at least `minDur`, format them back, and append them in
input order.  Busy intervals arrive as minute pairs: the sync paths hand this
function `datetime.time` objects, read as `hour * 60 + minute`. -/
def subtract_ranges (p : String → Option Nat) (f : Nat → String) (minDur : Nat)
    (busy : List (Nat × Nat)) : List TimeRangeS → Option (List TimeRangeS)
  | [] => some []
  | tr :: rest =>
    match p tr.start, p tr.stop with
    | some s, some e =>
      match subtract_ranges p f minDur busy rest with
      | some acc =>
        some ((((subtractBusy busy [(s, e)]).filter
          (fun r => minDur ≤ r.2 - r.1)).map (fun r => TimeRangeS.mk (f r.1) (f r.2))) ++ acc)
      | none => none
    | _, _ => none

/-- Minute-level content of `subtract_ranges`: survivors of the subtraction in
input order (certified against `subtract_ranges` by `subtract_ranges_as_core`). -/
def subtract_core (minDur : Nat) (busy : List (Nat × Nat)) (rs : List (Nat × Nat)) :
    List (Nat × Nat) :=
  rs.flatMap (fun r => (subtractBusy busy [r]).filter (fun x => minDur ≤ x.2 - x.1))

/-- Parse all range endpoints; `none` models the first `ValueError`. -/
def parse_ranges (p : String → Option Nat) : List TimeRangeS → Option (List (Nat × Nat))
  | [] => some []
  | tr :: rest =>
    match p tr.start, p tr.stop with
    | some s, some e => (parse_ranges p rest).map (fun rs => (s, e) :: rs)
    | _, _ => none

namespace CalendarScheduler

/-- `CalendarScheduler._subtract_busy_times_from_ranges`
(`app/tasks/calendar_scheduler.py`): 12/24-hour parser, 12-hour formatter,
30-minute minimum duration. -/
def subtract_busy_times_from_ranges (trs : List TimeRangeS) (busy : List (Nat × Nat)) :
    Option (List TimeRangeS) :=
  subtract_ranges Gatherly.time_to_minutes Gatherly.minutes_to_time_str 30 busy trs

end CalendarScheduler

namespace GoogleCalendarScheduler

/-- `GoogleCalendarScheduler._subtract_busy_times_from_ranges`: 24-hour parser
and formatter, 60-minute minimum duration. -/
def subtract_busy_times_from_ranges (trs : List TimeRangeS) (busy : List (Nat × Nat)) :
    Option (List TimeRangeS) :=
  subtract_ranges GoogleCalendarScheduler.time_to_minutes
    GoogleCalendarScheduler.minutes_to_time_str 60 busy trs

end GoogleCalendarScheduler

namespace availability_routes

/-- `_subtract_busy_times_from_ranges` (`app/routes/availability.py`):
12/24-hour parser, 12-hour formatter, 60-minute minimum duration. -/
def subtract_busy_times_from_ranges (trs : List TimeRangeS) (busy : List (Nat × Nat)) :
    Option (List TimeRangeS) :=
  subtract_ranges Gatherly.time_to_minutes Gatherly.minutes_to_time_str 60 busy trs

end availability_routes

/-- A persisted day-schedule JSON object.  Every field is optional: `none`
models an absent dictionary key.  The Python `end` key is named `stop`. -/
structure DayData where
  available : Option Bool
  start : Option String
  stop : Option String
  time_ranges : Option (List TimeRangeS)
  all_day : Option Bool
deriving DecidableEq, Repr

/-- Python `day_data.get('available', False)`. -/
def DayData.getAvailable (d : DayData) : Bool := d.available.getD false

/-- Python `day_data.get('start', '09:00')`. -/
def DayData.getStart (d : DayData) : String := d.start.getD "09:00"

/-- Python `day_data.get('end', '17:00')`. -/
def DayData.getStop (d : DayData) : String := d.stop.getD "17:00"

/-- Truthiness of the day dict (`if existing_day_data:`): false iff every key
is absent, i.e. the dict is `{}`. -/
def DayData.isEmptyDict (d : DayData) : Bool :=
  d.available.isNone && d.start.isNone && d.stop.isNone &&
    d.time_ranges.isNone && d.all_day.isNone

/-- The day dict with no keys, `{}` (what `get_day_availability` returns for a
day that has no stored data). -/
def DayData.emptyDict : DayData := ⟨none, none, none, none, none⟩

/-- The `existing_time_ranges` computation shared by all three conversion
functions: `get('time_ranges', [])`, falling back to the single
`start`/`end` pair when the list is missing or empty. -/
def effective_ranges (existing : DayData) : List TimeRangeS :=
  let tr := existing.time_ranges.getD []
  if tr.isEmpty then [TimeRangeS.mk existing.getStart existing.getStop] else tr

/-- Outcome of one day of a conversion pass: the day is left out of the result
dict (`skip`), written (`set`), or the pass raises and the week is aborted
(`err`). -/
inductive DayResult where
  | skip : DayResult
  | set : DayData → DayResult
  | err : DayResult
deriving DecidableEq, Repr

/-- The `available=true` branch shared verbatim by the three
`_convert_busy_times_to_availability*` functions: subtract the busy times from
the effective ranges; if ranges survive, write an available day whose
`start`/`end` duplicate the first surviving range; otherwise write an
unavailable day with empty `time_ranges` keeping the legacy `start`/`end`. -/
def convert_available_day
    (sub : List TimeRangeS → List (Nat × Nat) → Option (List TimeRangeS))
    (existing : DayData) (busy : List (Nat × Nat)) : DayResult :=
  match sub (effective_ranges existing) busy with
  | none => DayResult.err
  | some [] =>
    DayResult.set ⟨some false, some existing.getStart, some existing.getStop, some [], some false⟩
  | some (f :: rest) =>
    DayResult.set ⟨some true, some f.start, some f.stop, some (f :: rest), some false⟩

namespace CalendarScheduler

/-- One day of `CalendarScheduler._convert_busy_times_to_availability_format`:
days with no busy times are skipped (`continue`), days the user marked
available are re-derived, other days are passed through if non-empty. -/
def convert_day (existing : DayData) (day_busy : List (Nat × Nat)) : DayResult :=
  if day_busy.isEmpty then DayResult.skip
  else if existing.getAvailable then
    convert_available_day subtract_busy_times_from_ranges existing day_busy
  else if existing.isEmptyDict then DayResult.skip
  else DayResult.set existing

/-- The stored day after one `CalendarScheduler` sync pass: the caller
(`_sync_user_google_calendar` / `_sync_user_outlook_calendar` /
`_sync_user_unified_calendars`) merges the conversion result day-by-day into
the existing stored dict, so a skipped day keeps its old value; an exception
aborts the week before anything is written. -/
def sync_day (existing : DayData) (day_busy : List (Nat × Nat)) : DayData :=
  match convert_day existing day_busy with
  | DayResult.skip => existing
  | DayResult.err => existing
  | DayResult.set d => d

end CalendarScheduler

namespace GoogleCalendarScheduler

/-- One day of `GoogleCalendarScheduler._convert_busy_times_to_availability_format`:
days the user marked available are re-derived; any other day — the user's
explicit `available=false` included — gets the default policy: weekday with no
busy times becomes available `09:00`–`17:00`, otherwise unavailable.
`isWeekday` is `current_date.weekday() < 5`. -/
def convert_day (isWeekday : Bool) (existing : DayData) (day_busy : List (Nat × Nat)) :
    DayResult :=
  if existing.getAvailable then
    convert_available_day subtract_busy_times_from_ranges existing day_busy
  else if isWeekday && day_busy.isEmpty then
    DayResult.set ⟨some true, some "09:00", some "17:00",
      some [TimeRangeS.mk "09:00" "17:00"], some false⟩
  else
    DayResult.set ⟨some false, some "09:00", some "17:00", some [], some false⟩

/-- The stored day after one `GoogleCalendarScheduler` sync pass: its caller
overwrites the whole week with the conversion result
(`availability.set_availability_data(availability_data)`), so every converted
day is written as-is; an exception aborts the week before anything is written. -/
def sync_day (isWeekday : Bool) (existing : DayData) (day_busy : List (Nat × Nat)) : DayData :=
  match convert_day isWeekday existing day_busy with
  | DayResult.set d => d
  | _ => existing

end GoogleCalendarScheduler

namespace availability_routes

/-- One day of `_convert_busy_times_to_availability`
(`app/routes/availability.py`): days the user marked available are re-derived;
other days are passed through if non-empty, else written unavailable. -/
def convert_day (existing : DayData) (day_busy : List (Nat × Nat)) : DayResult :=
  if existing.getAvailable then
    convert_available_day subtract_busy_times_from_ranges existing day_busy
  else if existing.isEmptyDict then
    DayResult.set ⟨some false, some "09:00", some "17:00", some [], some false⟩
  else DayResult.set existing

end availability_routes

namespace Availability

/-- The day object written by `Availability.update_day_availability`
(`app/models/availability.py`), the manual day-level setter.  Python
`start_time or '09:00'` treats `None` and `''` alike, and the written dict
never has a `time_ranges` key. -/
def update_day_availability (available : Bool) (start_time end_time : Option String)
    (all_day : Bool) : DayData :=
  if available then
    if all_day then ⟨some true, some "00:00", some "23:59", none, some true⟩
    else
      ⟨some true,
       some (match start_time with | none => "09:00" | some s => if s = "" then "09:00" else s),
       some (match end_time with | none => "17:00" | some s => if s = "" then "17:00" else s),
       none, some false⟩
  else ⟨some false, none, none, none, none⟩

/-- `Availability._format_time_to_12hour`: `strptime('%H:%M')` then
`strftime('%I:%M %p').lstrip('0')`; any parse failure returns the input
unchanged.  The strftime-plus-lstrip output coincides with
`minutes_to_time_str`. -/
def format_time_to_12hour (s : String) : String :=
  match pySplitColon s with
  | [h, m] =>
    match pyInt? h, pyInt? m with
    | some hh, some mm =>
      if h.length ≤ 2 && m.length ≤ 2 && hh < 24 && mm < 60 then
        minutes_to_time_str (hh * 60 + mm)
      else s
    | _, _ => s
  | _ => s

/-- `Availability.get_time_range`: the single-range day reader; `none` models
Python `None`. -/
def get_time_range (day : DayData) : Option (String × String × Bool) :=
  if day.getAvailable then
    some (day.getStart, day.getStop, day.all_day.getD false)
  else none

/-- `Availability.get_time_ranges` with `user_timezone=None` (the
timezone-projection branch is untaken then): the multi-range day reader with
single-range fallback, each endpoint formatted to 12-hour display form. -/
def get_time_ranges (day : DayData) : List TimeRangeS :=
  if day.getAvailable then
    (effective_ranges day).map
      (fun r => TimeRangeS.mk (format_time_to_12hour r.start) (format_time_to_12hour r.stop))
  else []

end Availability

/-- `OutlookCalendarService.get_busy_times`
(`app/services/outlook_calendar_service.py`): an event produces a busy
interval unless its lowercased `showAs` is exactly `'free'` or
`'workingElsewhere'` (the mixed-case literal is compared against an
already-lowercased string).  A missing `showAs` defaults to `'busy'`. -/
def outlook_service_counts_busy (showAs : Option String) : Bool :=
  let s := pyLower (showAs.getD "busy")
  !(s = "free" || s = "workingElsewhere")

/-- The event filter inside `sync_from_outlook_calendar`
(`app/routes/availability.py`): an event produces a busy interval iff its
lowercased `showAs` is `'busy'`, `'oof'` or `'workingelsewhere'`. -/
def outlook_route_counts_busy (showAs : Option String) : Bool :=
  let s := pyLower (showAs.getD "busy")
  s = "busy" || s = "oof" || s = "workingelsewhere"

/-- A week's availability dict as stored by `set_availability_data`
(day-name keyed day objects). -/
abbrev WeekData := List (String × DayData)

/-- `_apply_default_to_future_weeks` (`app/routes/availability.py`): for every
`week_offset` in `range(0, max_weeks + 1)` upsert the availability record for
`week0 + 7 * week_offset` (week starts as day numbers) with the template's
schedule data, overwriting whatever was stored.  The persistence layer is a
map from week-start day number to stored week data. -/
def apply_default_to_future_weeks (tmpl : WeekData) (week0 max_weeks : Nat)
    (store : Nat → Option WeekData) : Nat → Option WeekData :=
  (List.range (max_weeks + 1)).foldl
    (fun st k w => if w = week0 + 7 * k then some tmpl else st w) store

/-- Modelled from the spec: the spec's own wording of one busy-interval step —
`(s,e)` is unchanged if `be<=s` or `bs>=e`; else split into `(s,bs)` if `s<bs`,
and/or `(be,e)` if `be<e` — for comparison with the code's `subtractOne`. -/
def subtractOne_spec (bs be s e : Nat) : List (Nat × Nat) :=
  if be ≤ s ∨ bs ≥ e then [(s, e)]
  else (if s < bs then [(s, bs)] else []) ++ (if be < e then [(be, e)] else [])

/-- A day in the exact shape `GoogleCalendarScheduler` itself emits for an
available day with minute ranges `rs`: 24-hour strings, `start`/`end`
duplicating the first range, `all_day` false. -/
def googleCanonicalDay (rs : List (Nat × Nat)) : DayData :=
  let strs := rs.map (fun r =>
    TimeRangeS.mk (GoogleCalendarScheduler.minutes_to_time_str r.1)
      (GoogleCalendarScheduler.minutes_to_time_str r.2))
  ⟨some true, some ((strs.headD (TimeRangeS.mk "09:00" "17:00")).start),
    some ((strs.headD (TimeRangeS.mk "09:00" "17:00")).stop), some strs, some false⟩

/-- Sortedness check for a stored range list, through the stored string
encoding: every consecutive pair must parse and be ordered end-before-start. -/
def rangesSortedB : List TimeRangeS → Bool
  | [] => true
  | [_] => true
  | a :: b :: rest =>
    (match time_to_minutes a.stop, time_to_minutes b.start with
     | some ea, some sb => decide (ea ≤ sb)
     | _, _ => false) && rangesSortedB (b :: rest)

end Gatherly

namespace Gatherly

theorem subtractOne_within {bs be : Nat} {r x : Nat × Nat}
    (hx : x ∈ subtractOne bs be r) : r.1 ≤ x.1 ∧ x.2 ≤ r.2 := by
  unfold subtractOne at hx
  split at hx
  · simp at hx
    subst hx
    exact ⟨Nat.le_refl _, Nat.le_refl _⟩
  · rcases List.mem_append.mp hx with h | h <;>
      (split at h <;> simp at h <;> subst h <;> simp_all <;> omega)

theorem subtractOne_pairwise {bs be : Nat} (r : Nat × Nat) (hb : bs ≤ be) :
    (subtractOne bs be r).Pairwise (fun a b => a.2 ≤ b.1) := by
  unfold subtractOne
  split
  · simp
  · split <;> split <;> simp <;> omega

theorem subtractBusy_cons (b : Nat × Nat) (busy cur : List (Nat × Nat)) :
    subtractBusy (b :: busy) cur = subtractBusy busy (cur.flatMap (subtractOne b.1 b.2)) := rfl

theorem subtractBusy_nil (cur : List (Nat × Nat)) : subtractBusy [] cur = cur := rfl

theorem subtractBusy_within {lo hi : Nat} :
    ∀ (busy cur : List (Nat × Nat)), (∀ x ∈ cur, lo ≤ x.1 ∧ x.2 ≤ hi) →
      ∀ x ∈ subtractBusy busy cur, lo ≤ x.1 ∧ x.2 ≤ hi := by
  intro busy
  induction busy with
  | nil => intro cur h x hx; exact h x (by simpa [subtractBusy_nil] using hx)
  | cons b rest ih =>
    intro cur h x hx
    rw [subtractBusy_cons] at hx
    refine ih _ ?_ x hx
    intro y hy
    rcases List.mem_flatMap.mp hy with ⟨r, hr, hyr⟩
    have h1 := subtractOne_within hyr
    have h2 := h r hr
    exact ⟨Nat.le_trans h2.1 h1.1, Nat.le_trans h1.2 h2.2⟩

theorem subtractBusy_pairwise :
    ∀ (busy cur : List (Nat × Nat)), (∀ b ∈ busy, b.1 ≤ b.2) →
      cur.Pairwise (fun a b => a.2 ≤ b.1) →
      (subtractBusy busy cur).Pairwise (fun a b => a.2 ≤ b.1) := by
  intro busy
  induction busy with
  | nil => intro cur _ h; simpa [subtractBusy_nil] using h
  | cons b rest ih =>
    intro cur hwf h
    rw [subtractBusy_cons]
    refine ih _ (fun x hx => hwf x (List.mem_cons_of_mem _ hx)) ?_
    rw [List.pairwise_flatMap]
    constructor
    · intro a _
      exact subtractOne_pairwise a (hwf b (List.mem_cons_self _ _))
    · refine h.imp ?_
      intro a1 a2 h12 x hx y hy
      have hx1 := subtractOne_within hx
      have hy1 := subtractOne_within hy
      exact Nat.le_trans hx1.2 (Nat.le_trans h12 hy1.1)

theorem subtract_core_pairwise (minDur : Nat) (busy rs : List (Nat × Nat))
    (hwf : ∀ b ∈ busy, b.1 ≤ b.2) (hs : rs.Pairwise (fun a b => a.2 ≤ b.1)) :
    (subtract_core minDur busy rs).Pairwise (fun a b => a.2 ≤ b.1) := by
  unfold subtract_core
  rw [List.pairwise_flatMap]
  constructor
  · intro r _
    exact (subtractBusy_pairwise busy [r] hwf (by simp)).filter _
  · refine hs.imp ?_
    intro r1 r2 h12 x hx y hy
    have hx1 : r1.1 ≤ x.1 ∧ x.2 ≤ r1.2 :=
      subtractBusy_within busy [r1] (by simp) x (List.mem_of_mem_filter hx)
    have hy1 : r2.1 ≤ y.1 ∧ y.2 ≤ r2.2 :=
      subtractBusy_within busy [r2] (by simp) y (List.mem_of_mem_filter hy)
    exact Nat.le_trans hx1.2 (Nat.le_trans h12 hy1.1)

theorem subtract_ranges_as_core (p : String → Option Nat) (f : Nat → String) (minDur : Nat)
    (busy : List (Nat × Nat)) :
    ∀ trs : List TimeRangeS,
      subtract_ranges p f minDur busy trs =
        (parse_ranges p trs).map
          (fun rs => (subtract_core minDur busy rs).map (fun r => TimeRangeS.mk (f r.1) (f r.2))) := by
  intro trs
  induction trs with
  | nil => simp [subtract_ranges, parse_ranges, subtract_core]
  | cons tr rest ih =>
    unfold subtract_ranges parse_ranges
    cases hps : p tr.start with
    | none => simp
    | some s =>
      cases hpe : p tr.stop with
      | none => simp
      | some e =>
        simp only [ih]
        cases hpr : parse_ranges p rest with
        | none => simp
        | some rs => simp [subtract_core]

end Gatherly

namespace Gatherly

set_option maxHeartbeats 4000000 in
set_option maxRecDepth 4000 in
theorem g_round_trip_hm :
    ∀ h, h < 24 → ∀ mi, mi < 60 →
      GoogleCalendarScheduler.time_to_minutes
        (GoogleCalendarScheduler.minutes_to_time_str (60 * h + mi)) = some (60 * h + mi) := by
  decide

theorem g_round_trip {m : Nat} (hm : m < 1440) :
    GoogleCalendarScheduler.time_to_minutes
      (GoogleCalendarScheduler.minutes_to_time_str m) = some m := by
  have h1 : m = 60 * (m / 60) + m % 60 := (Nat.div_add_mod m 60).symm
  have h2 : m / 60 < 24 := by omega
  have h3 : m % 60 < 60 := Nat.mod_lt _ (by omega)
  rw [h1]
  exact g_round_trip_hm (m / 60) h2 (m % 60) h3

theorem parse_fmt_google :
    ∀ rs : List (Nat × Nat), (∀ r ∈ rs, r.1 < 1440 ∧ r.2 < 1440) →
      parse_ranges GoogleCalendarScheduler.time_to_minutes
        (rs.map (fun r => TimeRangeS.mk (GoogleCalendarScheduler.minutes_to_time_str r.1)
          (GoogleCalendarScheduler.minutes_to_time_str r.2))) = some rs := by
  intro rs
  induction rs with
  | nil => intro _; rfl
  | cons r rest ih =>
    intro h
    have hr := h r (List.mem_cons_self _ _)
    simp only [List.map_cons, parse_ranges]
    rw [g_round_trip hr.1, g_round_trip hr.2]
    rw [ih (fun x hx => h x (List.mem_cons_of_mem _ hx))]
    rfl

theorem subtract_core_no_busy :
    ∀ (minDur : Nat) (rs : List (Nat × Nat)), (∀ r ∈ rs, minDur ≤ r.2 - r.1) →
      subtract_core minDur [] rs = rs := by
  intro minDur rs
  induction rs with
  | nil => intro _; rfl
  | cons r rest ih =>
    intro h
    have hr := h r (List.mem_cons_self _ _)
    simp only [subtract_core, List.flatMap_cons, subtractBusy_nil] at *
    have hrest := ih (fun x hx => h x (List.mem_cons_of_mem _ hx))
    simp only [subtract_core, List.flatMap_cons, subtractBusy_nil] at hrest ⊢
    simp [hr, hrest]

theorem google_canonical_pass_through (rs : List (Nat × Nat)) (w : Bool)
    (hne : rs ≠ [])
    (hb : ∀ r ∈ rs, r.1 < 1440 ∧ r.2 < 1440 ∧ 60 ≤ r.2 - r.1) :
    GoogleCalendarScheduler.sync_day w (googleCanonicalDay rs) [] = googleCanonicalDay rs := by
  cases rs with
  | nil => exact absurd rfl hne
  | cons r rest =>
    unfold GoogleCalendarScheduler.sync_day GoogleCalendarScheduler.convert_day
    have hav : (googleCanonicalDay (r :: rest)).getAvailable = true := by
      simp [googleCanonicalDay, DayData.getAvailable]
    rw [if_pos hav]
    unfold convert_available_day
    have heff : effective_ranges (googleCanonicalDay (r :: rest)) =
        (r :: rest).map (fun x => TimeRangeS.mk
          (GoogleCalendarScheduler.minutes_to_time_str x.1)
          (GoogleCalendarScheduler.minutes_to_time_str x.2)) := by
      simp [effective_ranges, googleCanonicalDay]
    rw [heff]
    rw [GoogleCalendarScheduler.subtract_busy_times_from_ranges, subtract_ranges_as_core]
    rw [parse_fmt_google _ (fun x hx => ⟨(hb x hx).1, (hb x hx).2.1⟩)]
    simp only [Option.map_some']
    rw [subtract_core_no_busy 60 _ (fun x hx => (hb x hx).2.2)]
    simp only [List.map_cons]
    simp [googleCanonicalDay, DayData.getStart, DayData.getStop]

end Gatherly

namespace Gatherly

theorem apply_default_hit (tmpl : WeekData) (week0 : Nat) (store : Nat → Option WeekData) :
    ∀ n k, k ≤ n →
      apply_default_to_future_weeks tmpl week0 n store (week0 + 7 * k) = some tmpl := by
  intro n
  induction n with
  | zero =>
    intro k hk
    interval_cases k
    simp [apply_default_to_future_weeks, List.range_succ]
  | succ n ih =>
    intro k hk
    unfold apply_default_to_future_weeks at *
    rw [List.range_succ, List.foldl_append]
    simp only [List.foldl_cons, List.foldl_nil]
    by_cases hkn : k = n + 1
    · subst hkn
      simp
    · have hk2 : k ≤ n := by omega
      have hne : week0 + 7 * k ≠ week0 + 7 * (n + 1) := by omega
      rw [if_neg hne]
      exact ih k hk2

theorem apply_default_miss (tmpl : WeekData) (week0 : Nat) (store : Nat → Option WeekData) :
    ∀ n w, (∀ k, k ≤ n → w ≠ week0 + 7 * k) →
      apply_default_to_future_weeks tmpl week0 n store w = store w := by
  intro n
  induction n with
  | zero =>
    intro w hw
    have h0 := hw 0 (Nat.le_refl _)
    simp only [apply_default_to_future_weeks, List.range_succ, List.range_zero,
      List.nil_append, List.foldl_cons, List.foldl_nil]
    rw [if_neg h0]
  | succ n ih =>
    intro w hw
    unfold apply_default_to_future_weeks at *
    rw [List.range_succ, List.foldl_append]
    simp only [List.foldl_cons, List.foldl_nil]
    rw [if_neg (hw (n + 1) (Nat.le_refl _))]
    exact ih w (fun k hk => hw k (Nat.le_succ_of_le hk))

theorem apply_default_idem (tmpl : WeekData) (week0 n : Nat) (store : Nat → Option WeekData)
    (w : Nat) :
    apply_default_to_future_weeks tmpl week0 n
      (apply_default_to_future_weeks tmpl week0 n store) w =
    apply_default_to_future_weeks tmpl week0 n store w := by
  by_cases hc : ∃ k, k ≤ n ∧ w = week0 + 7 * k
  · obtain ⟨k, hk, rfl⟩ := hc
    rw [apply_default_hit tmpl week0 _ n k hk, apply_default_hit tmpl week0 _ n k hk]
  · push_neg at hc
    exact apply_default_miss tmpl week0 _ n w (fun k hk => hc k hk)

set_option maxHeartbeats 1000000 in
theorem time_round_trip_quarter :
    ∀ q, q < 96 → time_to_minutes (minutes_to_time_str (15 * q)) = some (15 * q) := by
  decide

theorem convert_available_day_first_range
    (sub : List TimeRangeS → List (Nat × Nat) → Option (List TimeRangeS))
    (existing : DayData) (busy : List (Nat × Nat)) (d : DayData)
    (hset : convert_available_day sub existing busy = DayResult.set d)
    (hav : d.available = some true) :
    d.time_ranges.getD [] ≠ [] ∧
    d.start = some ((d.time_ranges.getD []).headD (TimeRangeS.mk "" "")).start ∧
    d.stop = some ((d.time_ranges.getD []).headD (TimeRangeS.mk "" "")).stop := by
  unfold convert_available_day at hset
  split at hset
  · exact absurd hset (by simp)
  · rw [DayResult.set.injEq] at hset
    subst hset
    simp at hav
  · rw [DayResult.set.injEq] at hset
    subst hset
    exact ⟨by simp, rfl, rfl⟩

end Gatherly

namespace Gatherly

theorem routes_convert_day_first_range (existing : DayData) (busy : List (Nat × Nat))
    (d : DayData) (hset : availability_routes.convert_day existing busy = DayResult.set d)
    (hav : d.available = some true) :
    d.time_ranges.getD [] ≠ [] ∧
    d.start = some ((d.time_ranges.getD []).headD (TimeRangeS.mk "" "")).start ∧
    d.stop = some ((d.time_ranges.getD []).headD (TimeRangeS.mk "" "")).stop := by
  unfold availability_routes.convert_day at hset
  split_ifs at hset with h1 h2
  all_goals first
    | exact convert_available_day_first_range _ _ _ _ hset hav
    | (rw [DayResult.set.injEq] at hset
       subst hset
       simp_all [DayData.getAvailable])

theorem calendar_convert_day_first_range (existing : DayData) (busy : List (Nat × Nat))
    (d : DayData) (hset : CalendarScheduler.convert_day existing busy = DayResult.set d)
    (hav : d.available = some true) :
    d.time_ranges.getD [] ≠ [] ∧
    d.start = some ((d.time_ranges.getD []).headD (TimeRangeS.mk "" "")).start ∧
    d.stop = some ((d.time_ranges.getD []).headD (TimeRangeS.mk "" "")).stop := by
  unfold CalendarScheduler.convert_day at hset
  split_ifs at hset with h1 h2 h3
  all_goals first
    | exact convert_available_day_first_range _ _ _ _ hset hav
    | (rw [DayResult.set.injEq] at hset
       subst hset
       simp_all [DayData.getAvailable])

theorem google_convert_day_first_range (w : Bool) (existing : DayData)
    (busy : List (Nat × Nat)) (d : DayData)
    (hset : GoogleCalendarScheduler.convert_day w existing busy = DayResult.set d)
    (hav : d.available = some true) :
    d.time_ranges.getD [] ≠ [] ∧
    d.start = some ((d.time_ranges.getD []).headD (TimeRangeS.mk "" "")).start ∧
    d.stop = some ((d.time_ranges.getD []).headD (TimeRangeS.mk "" "")).stop := by
  unfold GoogleCalendarScheduler.convert_day at hset
  split_ifs at hset with h1 h2
  all_goals first
    | exact convert_available_day_first_range _ _ _ _ hset hav
    | (rw [DayResult.set.injEq] at hset
       subst hset
       simp_all [DayData.getAvailable])

theorem update_day_availability_no_time_ranges (av : Bool) (st en : Option String) (ad : Bool) :
    (Availability.update_day_availability av st en ad).time_ranges = none := by
  unfold Availability.update_day_availability
  split_ifs <;> rfl

end Gatherly

namespace Gatherly

/-- C1: the claim says a stored day with `available=false` is never flipped to
available by a sync pass, regardless of the busy intervals supplied.  The code
violates this: `GoogleCalendarScheduler._convert_busy_times_to_availability_format`
sends every day whose `available` flag is not true — a day the user explicitly
marked unavailable included — through its defaulting branch, which writes
`available=true` with default 09:00-17:00 hours for a weekday with no busy
intervals, and the caller persists the result wholesale.  This evaluation
exhibits the flip at the concrete failing input. -/
theorem C1_google_sync_flips_user_unavailable_day :
    DayData.getAvailable ⟨some false, some "09:00", some "17:00", some [], some false⟩ = false ∧
    GoogleCalendarScheduler.sync_day true
      ⟨some false, some "09:00", some "17:00", some [], some false⟩ [] =
      ⟨some true, some "09:00", some "17:00", some [TimeRangeS.mk "09:00" "17:00"], some false⟩ ∧
    DayData.getAvailable
      ⟨some true, some "09:00", some "17:00", some [TimeRangeS.mk "09:00" "17:00"], some false⟩ =
      true := by
  refine ⟨rfl, by decide, rfl⟩

/-- C2: subtraction correctness.  For a day with available range
`[540,1020)` (stored as `9:00 AM`-`5:00 PM`) and one busy interval
`[600,660)`, `CalendarScheduler._subtract_busy_times_from_ranges`
(minimum duration 30) returns exactly `9:00 AM`-`10:00 AM` and
`11:00 AM`-`5:00 PM`, i.e. `[540,600)` and `[660,1020)`; and in general one
busy-interval step of the code equals the spec wording `subtractOne_spec`:
unchanged if `be ≤ s` or `bs ≥ e`, else `(s,bs)` if `s < bs` and/or `(be,e)`
if `be < e`. -/
theorem C2_subtraction_correctness :
    (time_to_minutes "9:00 AM" = some 540 ∧ time_to_minutes "5:00 PM" = some 1020 ∧
     time_to_minutes "10:00 AM" = some 600 ∧ time_to_minutes "11:00 AM" = some 660) ∧
    CalendarScheduler.subtract_busy_times_from_ranges
      [TimeRangeS.mk "9:00 AM" "5:00 PM"] [(600, 660)] =
      some [TimeRangeS.mk "9:00 AM" "10:00 AM", TimeRangeS.mk "11:00 AM" "5:00 PM"] ∧
    ∀ bs be s e : Nat, subtractOne bs be (s, e) = subtractOne_spec bs be s e :=
  ⟨⟨by decide, by decide, by decide, by decide⟩, by decide, fun bs be s e => rfl⟩

/-- C3 counterexample: the claim says reconciling an `available=true` day
against zero busy intervals leaves the stored day byte-for-byte identical.
False for `GoogleCalendarScheduler`: a day stored available `09:00`-`09:45`
(45 minutes, below its 60-minute threshold) with zero busy intervals is
rewritten to `available=false` with empty `time_ranges` — not identical. -/
theorem C3_no_conflict_pass_through_counterexample :
    GoogleCalendarScheduler.sync_day false
      ⟨some true, some "09:00", some "09:45", some [TimeRangeS.mk "09:00" "09:45"], some false⟩
      [] =
      ⟨some false, some "09:00", some "09:45", some [], some false⟩ ∧
    (⟨some false, some "09:00", some "09:45", some [], some false⟩ : DayData) ≠
      ⟨some true, some "09:00", some "09:45", some [TimeRangeS.mk "09:00" "09:45"], some false⟩ :=
  ⟨by decide, by decide⟩

/-- C3 amended: no-conflict pass-through holds as stated for the multi-source
`CalendarScheduler` pass, whose conversion skips any day with no busy
intervals and whose caller merges day-by-day: the stored day is unchanged for
every stored value.  For `GoogleCalendarScheduler` the day is re-derived, and
is unchanged exactly when it is in the canonical form that scheduler itself
emits (24-hour strings for minute ranges, `start`/`end` duplicating the first
range, `all_day=false`) with every range at least its 60-minute threshold. -/
theorem C3_no_conflict_pass_through_amended (existing : DayData) (rs : List (Nat × Nat))
    (w : Bool) (hne : rs ≠ [])
    (hb : ∀ r ∈ rs, r.1 < 1440 ∧ r.2 < 1440 ∧ 60 ≤ r.2 - r.1) :
    CalendarScheduler.sync_day existing [] = existing ∧
    GoogleCalendarScheduler.sync_day w (googleCanonicalDay rs) [] = googleCanonicalDay rs :=
  ⟨by simp [CalendarScheduler.sync_day, CalendarScheduler.convert_day],
   google_canonical_pass_through rs w hne hb⟩

/-- C3 witness: the amended theorem at a concrete empty stored day and at the
canonical 9-to-5 day of the claim. -/
theorem C3_no_conflict_pass_through_witness :
    CalendarScheduler.sync_day DayData.emptyDict [] = DayData.emptyDict ∧
    GoogleCalendarScheduler.sync_day true (googleCanonicalDay [(540, 1020)]) [] =
      googleCanonicalDay [(540, 1020)] :=
  C3_no_conflict_pass_through_amended DayData.emptyDict [(540, 1020)] true (by decide) (by decide)

/-- C4: short-remainder drop.  Concretely: available `[540,1020)`, busy
`[555,1019)` leaves minute ranges `[540,555)` and `[1019,1020)` (15 and 1
minutes), and the routes subtraction (threshold 60) drops both, yielding no
survivors; in general every range surviving `subtract_core` has duration at
least the call-site threshold `minDur`; and a day that had `available=true`
whose subtraction yields zero ranges is written `available=false` with empty
`time_ranges`, keeping the legacy `start`/`end`. -/
theorem C4_short_remainder_drop (minDur : Nat) (busy rs : List (Nat × Nat)) (x : Nat × Nat)
    (existing : DayData) (busyE : List (Nat × Nat))
    (hx : x ∈ subtract_core minDur busy rs)
    (hav : existing.getAvailable = true)
    (hzero : availability_routes.subtract_busy_times_from_ranges
      (effective_ranges existing) busyE = some []) :
    (subtractBusy [(555, 1019)] [(540, 1020)] = [(540, 555), (1019, 1020)] ∧
     availability_routes.subtract_busy_times_from_ranges
       [TimeRangeS.mk "9:00 AM" "5:00 PM"] [(555, 1019)] = some []) ∧
    minDur ≤ x.2 - x.1 ∧
    availability_routes.convert_day existing busyE =
      DayResult.set ⟨some false, some existing.getStart, some existing.getStop,
        some [], some false⟩ := by
  refine ⟨⟨by decide, by decide⟩, ?_, ?_⟩
  · rcases List.mem_flatMap.mp hx with ⟨r, hr, hxr⟩
    have hf := List.of_mem_filter hxr
    simpa using hf
  · unfold availability_routes.convert_day
    rw [if_pos hav]
    unfold convert_available_day
    rw [hzero]

/-- C4 witness: the generic conjuncts of C4 instantiated at the concrete
claim inputs. -/
theorem C4_short_remainder_drop_witness :
    30 ≤ (540, 600).2 - (540, 600).1 ∧
    availability_routes.convert_day
      ⟨some true, some "9:00 AM", some "5:00 PM",
        some [TimeRangeS.mk "9:00 AM" "5:00 PM"], some false⟩ [(555, 1019)] =
      DayResult.set ⟨some false,
        some (DayData.getStart ⟨some true, some "9:00 AM", some "5:00 PM",
          some [TimeRangeS.mk "9:00 AM" "5:00 PM"], some false⟩),
        some (DayData.getStop ⟨some true, some "9:00 AM", some "5:00 PM",
          some [TimeRangeS.mk "9:00 AM" "5:00 PM"], some false⟩),
        some [], some false⟩ :=
  (C4_short_remainder_drop 30 [(600, 660)] [(540, 1020)] (540, 600)
    ⟨some true, some "9:00 AM", some "5:00 PM",
      some [TimeRangeS.mk "9:00 AM" "5:00 PM"], some false⟩ [(555, 1019)]
    (by decide) (by decide) (by decide)).2

/-- C5 counterexample: the claim says every write stores the time-range list
sorted and non-overlapping even when the stored input ranges are unsorted,
the Reconciler re-sorting before persisting.  False: no sort exists.
`CalendarScheduler._subtract_busy_times_from_ranges` applied to the unsorted
stored ranges `1:00 PM`-`5:00 PM`, `9:00 AM`-`11:00 AM` with no busy
intervals returns them in the same unsorted order, which is what gets
persisted. -/
theorem C5_canonical_sort_counterexample :
    CalendarScheduler.subtract_busy_times_from_ranges
      [TimeRangeS.mk "1:00 PM" "5:00 PM", TimeRangeS.mk "9:00 AM" "11:00 AM"] [] =
      some [TimeRangeS.mk "1:00 PM" "5:00 PM", TimeRangeS.mk "9:00 AM" "11:00 AM"] ∧
    rangesSortedB [TimeRangeS.mk "1:00 PM" "5:00 PM", TimeRangeS.mk "9:00 AM" "11:00 AM"] =
      false :=
  ⟨by decide, by decide⟩

/-- C5 amended: the subtraction never re-sorts — its output is exactly the
per-input-range survivors concatenated in input order (the bridge equation to
`subtract_core`); the stored list is sorted and non-overlapping provided the
input minute ranges already are and every busy interval is well-formed
(start ≤ end).  Unsorted input is persisted unsorted. -/
theorem C5_canonical_sort_amended (p : String → Option Nat) (f : Nat → String)
    (minDur : Nat) (busy : List (Nat × Nat)) (trs : List TimeRangeS)
    (minDur2 : Nat) (busy2 rs2 : List (Nat × Nat))
    (hwf : ∀ b ∈ busy2, b.1 ≤ b.2) (hs : rs2.Pairwise (fun a b => a.2 ≤ b.1)) :
    subtract_ranges p f minDur busy trs =
      (parse_ranges p trs).map
        (fun rs => (subtract_core minDur busy rs).map
          (fun r => TimeRangeS.mk (f r.1) (f r.2))) ∧
    (subtract_core minDur2 busy2 rs2).Pairwise (fun a b => a.2 ≤ b.1) :=
  ⟨subtract_ranges_as_core p f minDur busy trs,
   subtract_core_pairwise minDur2 busy2 rs2 hwf hs⟩

/-- C5 witness: the amended theorem at the concrete 9-to-5 range with busy
interval `[600,660)`. -/
theorem C5_canonical_sort_witness :
    subtract_ranges time_to_minutes minutes_to_time_str 30 [(600, 660)]
      [TimeRangeS.mk "9:00 AM" "5:00 PM"] =
      (parse_ranges time_to_minutes [TimeRangeS.mk "9:00 AM" "5:00 PM"]).map
        (fun rs => (subtract_core 30 [(600, 660)] rs).map
          (fun r => TimeRangeS.mk (minutes_to_time_str r.1) (minutes_to_time_str r.2))) ∧
    (subtract_core 30 [(600, 660)] [(540, 1020)]).Pairwise (fun a b => a.2 ≤ b.1) :=
  C5_canonical_sort_amended time_to_minutes minutes_to_time_str 30 [(600, 660)]
    [TimeRangeS.mk "9:00 AM" "5:00 PM"] 30 [(600, 660)] [(540, 1020)]
    (by decide) (by decide)

/-- C6: `_apply_default_to_future_weeks` upserts the availability record of
`weekStart + 7k` for every `week_offset` `k` in `[0, max_weeks]` inclusive —
53 weeks for the default `max_weeks = 52` used by `save_default_schedule` —
overwriting each with the template, and applying the same template twice
leaves the stored map pointwise identical to applying it once. -/
theorem C6_apply_default_schedule (tmpl : WeekData) (week0 : Nat)
    (store : Nat → Option WeekData) (k w : Nat) (hk : k ≤ 52) :
    apply_default_to_future_weeks tmpl week0 52 store (week0 + 7 * k) = some tmpl ∧
    apply_default_to_future_weeks tmpl week0 52
      (apply_default_to_future_weeks tmpl week0 52 store) w =
      apply_default_to_future_weeks tmpl week0 52 store w :=
  ⟨apply_default_hit tmpl week0 store 52 k hk, apply_default_idem tmpl week0 52 store w⟩

/-- C6 witness: C6 at a concrete template, week numbering, empty store,
`k = 5` and probe week `3`. -/
theorem C6_apply_default_schedule_witness :
    apply_default_to_future_weeks [] 0 52 (fun _ => none) (0 + 7 * 5) = some [] ∧
    apply_default_to_future_weeks [] 0 52
      (apply_default_to_future_weeks [] 0 52 (fun _ => none)) 3 =
      apply_default_to_future_weeks [] 0 52 (fun _ => none) 3 :=
  C6_apply_default_schedule [] 0 (fun _ => none) 5 3 (by decide)

/-- C7: the claim says events with status `free`, `tentative` or
`working elsewhere` are never counted busy, only `busy` and `out of office`.
The code violates it twice: `OutlookCalendarService.get_busy_times` lowercases
`showAs` and then compares against the mixed-case literal `workingElsewhere`
(which can never match) and does not filter `tentative` at all, so both are
counted busy there; and `sync_from_outlook_calendar` in the routes explicitly
counts `workingelsewhere` as busy, contradicting its own comment.  Only
`free` is handled as the claim states by both paths (`tentative` only by the
route). -/
theorem C7_outlook_busy_status_mismatch :
    outlook_service_counts_busy (some "workingElsewhere") = true ∧
    outlook_route_counts_busy (some "workingElsewhere") = true ∧
    outlook_service_counts_busy (some "tentative") = true ∧
    outlook_service_counts_busy (some "free") = false ∧
    outlook_route_counts_busy (some "tentative") = false ∧
    outlook_route_counts_busy (some "free") = false := by
  decide

/-- C8: round-trip formatting.  For every quarter-hour minute value
`15q < 1440`, parsing the emitted 12-hour display string back with
`time_to_minutes` gives the same minute value, hence re-formatting gives the
identical string; minute 0 renders as `12:00 AM` and minute 720 as
`12:00 PM`, with no leading zero on the hour. -/
theorem C8_time_format_round_trip (q : Nat) (hq : q < 96) :
    time_to_minutes (minutes_to_time_str (15 * q)) = some (15 * q) ∧
    minutes_to_time_str ((time_to_minutes (minutes_to_time_str (15 * q))).getD 0) =
      minutes_to_time_str (15 * q) ∧
    minutes_to_time_str 0 = "12:00 AM" ∧ minutes_to_time_str 720 = "12:00 PM" := by
  have h := time_round_trip_quarter q hq
  exact ⟨h, by simp [h], by decide, by decide⟩

/-- C8 witness: C8 at `q = 58`, i.e. minute 870, the string `2:30 PM`. -/
theorem C8_time_format_round_trip_witness :
    time_to_minutes (minutes_to_time_str (15 * 58)) = some (15 * 58) ∧
    minutes_to_time_str ((time_to_minutes (minutes_to_time_str (15 * 58))).getD 0) =
      minutes_to_time_str (15 * 58) ∧
    minutes_to_time_str 0 = "12:00 AM" ∧ minutes_to_time_str 720 = "12:00 PM" :=
  C8_time_format_round_trip 58 (by decide)

/-- C9 counterexample: the claim says every write of a day object keeps the
top-level `start`/`end` equal to `time_ranges[0]`, including the manual
day-level setter.  False: `Availability.update_day_availability` writes the
day with no `time_ranges` key at all, so there is no first range for `start`
to duplicate. -/
theorem C9_manual_setter_counterexample :
    (Availability.update_day_availability true (some "10:00") (some "12:00") false).start =
      some "10:00" ∧
    (Availability.update_day_availability true (some "10:00") (some "12:00") false).available =
      some true ∧
    (Availability.update_day_availability true (some "10:00") (some "12:00") false).time_ranges =
      none :=
  ⟨by decide, by decide, by decide⟩

/-- C9 amended: the three sync conversion writers do keep the redundancy: any
day they write with `available=true` carries a non-empty `time_ranges` whose
first element duplicates the top-level `start`/`end`.  The manual day-level
setter does not: it writes the single legacy `start`/`end` pair and omits the
`time_ranges` key entirely. -/
theorem C9_start_end_redundancy_amended
    (e1 e2 e3 : DayData) (b1 b2 b3 : List (Nat × Nat)) (d1 d2 d3 : DayData) (w : Bool)
    (av ad : Bool) (st en : Option String)
    (h1 : availability_routes.convert_day e1 b1 = DayResult.set d1)
    (ha1 : d1.available = some true)
    (h2 : CalendarScheduler.convert_day e2 b2 = DayResult.set d2)
    (ha2 : d2.available = some true)
    (h3 : GoogleCalendarScheduler.convert_day w e3 b3 = DayResult.set d3)
    (ha3 : d3.available = some true) :
    (d1.time_ranges.getD [] ≠ [] ∧
     d1.start = some ((d1.time_ranges.getD []).headD (TimeRangeS.mk "" "")).start ∧
     d1.stop = some ((d1.time_ranges.getD []).headD (TimeRangeS.mk "" "")).stop) ∧
    (d2.time_ranges.getD [] ≠ [] ∧
     d2.start = some ((d2.time_ranges.getD []).headD (TimeRangeS.mk "" "")).start ∧
     d2.stop = some ((d2.time_ranges.getD []).headD (TimeRangeS.mk "" "")).stop) ∧
    (d3.time_ranges.getD [] ≠ [] ∧
     d3.start = some ((d3.time_ranges.getD []).headD (TimeRangeS.mk "" "")).start ∧
     d3.stop = some ((d3.time_ranges.getD []).headD (TimeRangeS.mk "" "")).stop) ∧
    (Availability.update_day_availability av st en ad).time_ranges = none :=
  ⟨routes_convert_day_first_range e1 b1 d1 h1 ha1,
   calendar_convert_day_first_range e2 b2 d2 h2 ha2,
   google_convert_day_first_range w e3 b3 d3 h3 ha3,
   update_day_availability_no_time_ranges av st en ad⟩

/-- C9 witness: the amended theorem at concrete days produced by the three
conversion writers and at a concrete manual write. -/
theorem C9_start_end_redundancy_witness :
    ((some [TimeRangeS.mk "9:00 AM" "5:00 PM"] : Option (List TimeRangeS)).getD [] ≠ [] ∧
     (some "9:00 AM" : Option String) =
       some (((some [TimeRangeS.mk "9:00 AM" "5:00 PM"] : Option (List TimeRangeS)).getD
         []).headD (TimeRangeS.mk "" "")).start ∧
     (some "5:00 PM" : Option String) =
       some (((some [TimeRangeS.mk "9:00 AM" "5:00 PM"] : Option (List TimeRangeS)).getD
         []).headD (TimeRangeS.mk "" "")).stop) ∧
    ((some [TimeRangeS.mk "9:00 AM" "10:00 AM", TimeRangeS.mk "11:00 AM" "5:00 PM"] :
        Option (List TimeRangeS)).getD [] ≠ [] ∧
     (some "9:00 AM" : Option String) =
       some (((some [TimeRangeS.mk "9:00 AM" "10:00 AM", TimeRangeS.mk "11:00 AM" "5:00 PM"] :
         Option (List TimeRangeS)).getD []).headD (TimeRangeS.mk "" "")).start ∧
     (some "10:00 AM" : Option String) =
       some (((some [TimeRangeS.mk "9:00 AM" "10:00 AM", TimeRangeS.mk "11:00 AM" "5:00 PM"] :
         Option (List TimeRangeS)).getD []).headD (TimeRangeS.mk "" "")).stop) ∧
    ((some [TimeRangeS.mk "09:00" "17:00"] : Option (List TimeRangeS)).getD [] ≠ [] ∧
     (some "09:00" : Option String) =
       some (((some [TimeRangeS.mk "09:00" "17:00"] : Option (List TimeRangeS)).getD
         []).headD (TimeRangeS.mk "" "")).start ∧
     (some "17:00" : Option String) =
       some (((some [TimeRangeS.mk "09:00" "17:00"] : Option (List TimeRangeS)).getD
         []).headD (TimeRangeS.mk "" "")).stop) ∧
    (Availability.update_day_availability true (some "10:00") (some "12:00") false).time_ranges =
      none :=
  C9_start_end_redundancy_amended
    ⟨some true, some "9:00 AM", some "5:00 PM",
      some [TimeRangeS.mk "9:00 AM" "5:00 PM"], some false⟩
    ⟨some true, some "9:00 AM", some "5:00 PM",
      some [TimeRangeS.mk "9:00 AM" "5:00 PM"], some false⟩
    ⟨some true, some "09:00", some "17:00", some [TimeRangeS.mk "09:00" "17:00"], some false⟩
    [] [(600, 660)] []
    ⟨some true, some "9:00 AM", some "5:00 PM",
      some [TimeRangeS.mk "9:00 AM" "5:00 PM"], some false⟩
    ⟨some true, some "9:00 AM", some "10:00 AM",
      some [TimeRangeS.mk "9:00 AM" "10:00 AM", TimeRangeS.mk "11:00 AM" "5:00 PM"], some false⟩
    ⟨some true, some "09:00", some "17:00", some [TimeRangeS.mk "09:00" "17:00"], some false⟩
    true true false (some "10:00") (some "12:00")
    (by decide) (by decide) (by decide) (by decide) (by decide) (by decide)

/-- C10: for every stored day whose `available` flag is false or absent, the
public readers return nothing: `get_time_ranges` is the empty list regardless
of stored `time_ranges` content and `get_time_range` is `None`. -/
theorem C10_unavailable_day_reads (day : DayData)
    (h : day.available = some false ∨ day.available = none) :
    Availability.get_time_ranges day = [] ∧ Availability.get_time_range day = none := by
  have hav : day.getAvailable = false := by
    rcases h with h | h <;> simp [DayData.getAvailable, h]
  exact ⟨by simp [Availability.get_time_ranges, hav],
    by simp [Availability.get_time_range, hav]⟩

/-- C10 witness: C10 at a day stored unavailable that still carries a
`time_ranges` entry. -/
theorem C10_unavailable_day_reads_witness :
    Availability.get_time_ranges
      ⟨some false, some "09:00", some "17:00",
        some [TimeRangeS.mk "09:00" "17:00"], some false⟩ = [] ∧
    Availability.get_time_range
      ⟨some false, some "09:00", some "17:00",
        some [TimeRangeS.mk "09:00" "17:00"], some false⟩ = none :=
  C10_unavailable_day_reads
    ⟨some false, some "09:00", some "17:00",
      some [TimeRangeS.mk "09:00" "17:00"], some false⟩ (Or.inl rfl)

end Gatherly
